import Mathlib

/-!
Shallow embedding of `src/Demonstration.py` (QuantConnect demonstration
algorithm `CustomDataAlgorithm`).

The script is reactive glue code driven by a host engine.  We embed it as
pure Lean functions:

* dynamic Python instance attributes (`self.equity_symbol`, ...) become an
  association list from attribute name to stored symbol; a read of an
  unassigned attribute is an `AttributeError`, exactly as in Python;
* the per-step data slice becomes the mapping returned by
  `slice.Get(MyCustomDataType)` (the only part of the slice the script
  reads); Python dictionary indexing of a missing key is a `KeyError`;
* the commands the strategy issues back to the engine (`SetHoldings`,
  `Debug`) become an explicit list of `Action` values;
* each handler returns the (possibly raised) Python error, the strategy
  instance, the engine-owned argument object, and the issued actions, so
  that frame properties (no mutation of engine objects or of the stored
  configuration) are statable.
-/

namespace Demonstration

/-- Instrument identifier: either a plain equity ticker, or a custom-data
symbol produced by `AddData` and bound to an underlying symbol. -/
inductive Symbol where
  | equity (ticker : String)
  | custom (dataType : String) (underlying : Symbol)
deriving DecidableEq, Repr

/-- Rendering of a symbol as a string, as used by the f-string in
`OnOrderEvent` (the exact engine rendering is opaque; only that the
identifier occurs in the message matters). -/
def Symbol.str : Symbol → String
  | Symbol.equity t => t
  | Symbol.custom d u => d ++ "." ++ Symbol.str u

/-- Modelled from the spec: the custom data record type `MyCustomDataType`
is not under src/ (it is provided by the data-source package).  Per the
spec it is an application-defined record with a discriminating signal
string; only the field `SomeCustomProperty` read by the script is
modelled. -/
structure MyCustomDataType where
  SomeCustomProperty : String
deriving DecidableEq, Repr

/-- Sampling resolution of a data feed (only `Daily` is used). -/
inductive Resolution where
  | Tick
  | Second
  | Minute
  | Hour
  | Daily
deriving DecidableEq, Repr

/-- Order lifecycle states, including the `Filled` terminal state tested
by `OnOrderEvent`. -/
inductive OrderStatus where
  | New
  | Submitted
  | PartiallyFilled
  | Filled
  | Canceled
  | Invalid
  | CancelPending
  | UpdateSubmitted
deriving DecidableEq, Repr

/-- An order event delivered to `OnOrderEvent`: its status and the
instrument it concerns. -/
structure OrderEvent where
  Status : OrderStatus
  Symbol : Symbol
deriving DecidableEq, Repr

/-- The per-time-step data slice, modelled as the mapping
`slice.Get(MyCustomDataType)` returns: custom data keyed by symbol.  This
is the only part of the slice the script reads. -/
structure Slice where
  customData : List (Symbol × MyCustomDataType)
deriving DecidableEq, Repr

/-- Embedding of `slice.Get(MyCustomDataType)`. -/
def Slice.Get (slice : Slice) : List (Symbol × MyCustomDataType) :=
  slice.customData

/-- Python runtime errors the script can raise. -/
inductive PyError where
  | AttributeError (name : String)
  | KeyError (key : Symbol)
deriving DecidableEq, Repr

/-- Commands the strategy issues back to the engine: set target holdings
to a given allocation weight, or emit a diagnostic message. -/
inductive Action where
  | SetHoldings (symbol : Symbol) (weight : Int)
  | Debug (message : String)
deriving DecidableEq, Repr

/-- The strategy instance: its dynamic attribute dictionary, mapping
attribute names to the symbols stored in them. -/
structure CustomDataAlgorithm where
  attrs : List (String × Symbol)
deriving DecidableEq, Repr

/-- Python attribute read `self.<name>`: first binding in the instance
dictionary, or `AttributeError` when the attribute was never assigned. -/
def lookupAttr (attrs : List (String × Symbol)) (name : String) :
    Except PyError Symbol :=
  match attrs.find? (fun p => decide (p.1 = name)) with
  | some p => Except.ok p.2
  | none => Except.error (PyError.AttributeError name)

/-- Python dictionary indexing `data[key]`: the first entry with the given
key, or `KeyError` when no entry has it. -/
def dictGetItem (data : List (Symbol × MyCustomDataType)) (key : Symbol) :
    Except PyError MyCustomDataType :=
  match data.find? (fun p => decide (p.1 = key)) with
  | some p => Except.ok p.2
  | none => Except.error (PyError.KeyError key)

/-- Registration calls `Initialize` makes against the host engine, in
order. -/
inductive InitCall where
  | SetStartDate (year month day : Nat)
  | SetEndDate (year month day : Nat)
  | AddEquity (ticker : String) (res : Resolution)
  | AddData (dataType : String) (underlying : Symbol)
deriving DecidableEq, Repr

/-- Embedding of `CustomDataAlgorithm.Initialize`: the registration calls
it issues to the host, in source order, and the resulting strategy
instance.  `AddEquity` returns the handle of the subscribed equity and
`AddData` the handle of the custom-data subscription bound to it; the
script stores them in `self.equity_symbol` and `self.custom_data_symbol`
respectively. -/
def Initialize : List InitCall × CustomDataAlgorithm :=
  let equity_symbol := Symbol.equity "SPY"
  let custom_data_symbol := Symbol.custom "MyCustomDataType" equity_symbol
  ([InitCall.SetStartDate 2020 10 7,
    InitCall.SetEndDate 2020 10 11,
    InitCall.AddEquity "SPY" Resolution.Daily,
    InitCall.AddData "MyCustomDataType" equity_symbol],
   { attrs := [("equity_symbol", equity_symbol),
               ("custom_data_symbol", custom_data_symbol)] })

/-- The registration calls issued during initialization. -/
def initCalls : List InitCall :=
  Initialize.1

/-- The strategy instance as it stands after initialization. -/
def initializedAlgo : CustomDataAlgorithm :=
  Initialize.2

/-- The custom-data subscription handle stored in
`self.custom_data_symbol` by initialization. -/
def customDataSymbol : Symbol :=
  Symbol.custom "MyCustomDataType" (Symbol.equity "SPY")

/-- Embedding of `CustomDataAlgorithm.OnData`.  Mirrors the source control
flow exactly: get the custom-data mapping from the slice; if it is
non-empty, read `self.custom_data_symbol`, index the mapping with it, and
branch on the signal field, reading `self.equitySymbol` (note the casing)
before each `SetHoldings` call.  The result carries the raised error (if
any), the strategy instance, the slice, and the issued actions; the
source contains no assignment to `self` attributes or to the slice, so
both come back unchanged on every path. -/
def OnData (self : CustomDataAlgorithm) (slice : Slice) :
    Option PyError × CustomDataAlgorithm × Slice × List Action :=
  let data := Slice.Get slice
  if data.isEmpty then
    (none, self, slice, [])
  else
    match lookupAttr self.attrs "custom_data_symbol" with
    | Except.error e => (some e, self, slice, [])
    | Except.ok cds =>
      match dictGetItem data cds with
      | Except.error e => (some e, self, slice, [])
      | Except.ok custom_data =>
        if custom_data.SomeCustomProperty = "buy" then
          match lookupAttr self.attrs "equitySymbol" with
          | Except.error e => (some e, self, slice, [])
          | Except.ok sym => (none, self, slice, [Action.SetHoldings sym 1])
        else if custom_data.SomeCustomProperty = "sell" then
          match lookupAttr self.attrs "equitySymbol" with
          | Except.error e => (some e, self, slice, [])
          | Except.ok sym => (none, self, slice, [Action.SetHoldings sym (-1)])
        else
          (none, self, slice, [])

/-- The diagnostic message built by the f-string in `OnOrderEvent`. -/
def debugMessage (orderEvent : OrderEvent) : String :=
  "Purchased Stock: " ++ Symbol.str orderEvent.Symbol

/-- Embedding of `CustomDataAlgorithm.OnOrderEvent`: on a `Filled` status,
emit one diagnostic message naming the instrument; otherwise do nothing.
No attribute of `self` and no field of the event is written. -/
def OnOrderEvent (self : CustomDataAlgorithm) (orderEvent : OrderEvent) :
    Option PyError × CustomDataAlgorithm × OrderEvent × List Action :=
  if orderEvent.Status = OrderStatus.Filled then
    (none, self, orderEvent, [Action.Debug (debugMessage orderEvent)])
  else
    (none, self, orderEvent, [])

/-- A slice whose custom-data mapping carries a "buy" record for the
subscribed custom-data symbol. -/
def buySlice : Slice :=
  { customData := [(customDataSymbol, { SomeCustomProperty := "buy" })] }

/-- A slice whose custom-data mapping carries a "sell" record for the
subscribed custom-data symbol. -/
def sellSlice : Slice :=
  { customData := [(customDataSymbol, { SomeCustomProperty := "sell" })] }

/-- A slice whose custom-data mapping carries a "hold" record for the
subscribed custom-data symbol. -/
def holdSlice : Slice :=
  { customData := [(customDataSymbol, { SomeCustomProperty := "hold" })] }

/-- A slice whose custom-data mapping is non-empty but has no entry for
the subscribed custom-data symbol. -/
def missSlice : Slice :=
  { customData := [(Symbol.equity "SPY", { SomeCustomProperty := "buy" })] }

/-- Predicate picking out the subscription calls among the registration
calls issued during initialization. -/
def isSubscription : InitCall → Bool
  | InitCall.AddEquity _ _ => true
  | InitCall.AddData _ _ => true
  | _ => false

/-- Reading `self.custom_data_symbol` on the initialized instance yields
the custom-data subscription handle. -/
theorem lookup_custom_data_symbol :
    lookupAttr initializedAlgo.attrs "custom_data_symbol" =
      Except.ok customDataSymbol := rfl

/-- Reading `self.equitySymbol` on the initialized instance raises
`AttributeError`: initialization assigned `equity_symbol`, not
`equitySymbol`. -/
theorem lookup_equitySymbol :
    lookupAttr initializedAlgo.attrs "equitySymbol" =
      Except.error (PyError.AttributeError "equitySymbol") := rfl

/-- A successful dictionary lookup forces the mapping to be non-empty. -/
theorem dictGetItem_ok_isEmpty_eq_false (data : List (Symbol × MyCustomDataType))
    (key : Symbol) (rec : MyCustomDataType)
    (h : dictGetItem data key = Except.ok rec) : data.isEmpty = false := by
  cases data with
  | nil => simp [dictGetItem] at h
  | cons a l => rfl

/-- Case analysis on `OnData`: on every path the strategy instance and the
slice come back unchanged, and the issued actions are either none or a
single `SetHoldings` with weight 1 or -1. -/
theorem onData_result (self : CustomDataAlgorithm) (slice : Slice) :
    ∃ err acts, OnData self slice = (err, self, slice, acts) ∧
      (acts = [] ∨ ∃ s, acts = [Action.SetHoldings s 1] ∨
        acts = [Action.SetHoldings s (-1)]) := by
  cases hE : (Slice.Get slice).isEmpty with
  | true =>
    refine ⟨none, [], ?_, Or.inl rfl⟩
    simp [OnData, hE]
  | false =>
    cases hL : lookupAttr self.attrs "custom_data_symbol" with
    | error e =>
      refine ⟨some e, [], ?_, Or.inl rfl⟩
      simp [OnData, hE, hL]
    | ok cds =>
      cases hD : dictGetItem (Slice.Get slice) cds with
      | error e =>
        refine ⟨some e, [], ?_, Or.inl rfl⟩
        simp [OnData, hE, hL, hD]
      | ok custom_data =>
        by_cases hB : custom_data.SomeCustomProperty = "buy"
        · cases hQ : lookupAttr self.attrs "equitySymbol" with
          | error e =>
            refine ⟨some e, [], ?_, Or.inl rfl⟩
            simp [OnData, hE, hL, hD, hB, hQ]
          | ok sym =>
            refine ⟨none, [Action.SetHoldings sym 1], ?_, Or.inr ⟨sym, Or.inl rfl⟩⟩
            simp [OnData, hE, hL, hD, hB, hQ]
        · by_cases hS : custom_data.SomeCustomProperty = "sell"
          · cases hQ : lookupAttr self.attrs "equitySymbol" with
            | error e =>
              refine ⟨some e, [], ?_, Or.inl rfl⟩
              simp [OnData, hE, hL, hD, hB, hS, hQ]
            | ok sym =>
              refine ⟨none, [Action.SetHoldings sym (-1)], ?_,
                Or.inr ⟨sym, Or.inr rfl⟩⟩
              simp [OnData, hE, hL, hD, hB, hS, hQ]
          · refine ⟨none, [], ?_, Or.inl rfl⟩
            simp [OnData, hE, hL, hD, hB, hS]

/-- On the initialized instance, a slice carrying a record for the
subscribed custom-data symbol whose signal is "buy" or "sell" makes
`OnData` raise `AttributeError` on `equitySymbol` and issue nothing. -/
theorem onData_signal_attribute_error (slice : Slice) (rec : MyCustomDataType)
    (hmem : dictGetItem (Slice.Get slice) customDataSymbol = Except.ok rec)
    (hsig : rec.SomeCustomProperty = "buy" ∨ rec.SomeCustomProperty = "sell") :
    OnData initializedAlgo slice =
      (some (PyError.AttributeError "equitySymbol"), initializedAlgo, slice, []) := by
  have hne : (Slice.Get slice).isEmpty = false :=
    dictGetItem_ok_isEmpty_eq_false _ _ _ hmem
  rcases hsig with hbuy | hsell
  · simp [OnData, hne, lookup_custom_data_symbol, hmem, hbuy, lookup_equitySymbol]
  · simp [OnData, hne, lookup_custom_data_symbol, hmem, hsell, lookup_equitySymbol,
      show ("sell" : String) ≠ "buy" by decide]

/-- C1: claimed behavior is that on a "buy" record for the subscribed
custom-data symbol, `OnData` issues exactly one `SetHoldings` with weight
1 for the underlying equity.  This theorem evaluates the code at that
input: the read of the unassigned attribute `equitySymbol` raises
`AttributeError` and no `SetHoldings` command is issued, so the code
contradicts the documented intent (a casing slip the spec itself flags as
a likely defect). -/
theorem C1_buy_raises_attribute_error :
    OnData initializedAlgo buySlice =
      (some (PyError.AttributeError "equitySymbol"), initializedAlgo, buySlice, []) := rfl

/-- C2: claimed behavior is that on a "sell" record for the subscribed
custom-data symbol, `OnData` issues exactly one `SetHoldings` with weight
-1 for the underlying equity.  This theorem evaluates the code at that
input: the read of the unassigned attribute `equitySymbol` raises
`AttributeError` and no `SetHoldings` command is issued. -/
theorem C2_sell_raises_attribute_error :
    OnData initializedAlgo sellSlice =
      (some (PyError.AttributeError "equitySymbol"), initializedAlgo, sellSlice, []) := rfl

/-- C3: the attribute read in the buy/sell branches is `equitySymbol`,
which initialization never assigns (it assigns `equity_symbol`), so on
the initialized instance that read raises `AttributeError`: the instance
dictionary has no binding for `equitySymbol`, `lookupAttr` fails on it,
and any slice carrying a "buy" or "sell" record for the subscribed
custom-data symbol makes `OnData` fail with that `AttributeError`. -/
theorem C3_equitySymbol_never_assigned (slice : Slice) (rec : MyCustomDataType)
    (hmem : dictGetItem (Slice.Get slice) customDataSymbol = Except.ok rec)
    (hsig : rec.SomeCustomProperty = "buy" ∨ rec.SomeCustomProperty = "sell") :
    initializedAlgo.attrs.filter (fun p => decide (p.1 = "equitySymbol")) = [] ∧
    lookupAttr initializedAlgo.attrs "equitySymbol" =
      Except.error (PyError.AttributeError "equitySymbol") ∧
    OnData initializedAlgo slice =
      (some (PyError.AttributeError "equitySymbol"), initializedAlgo, slice, []) :=
  ⟨rfl, rfl, onData_signal_attribute_error slice rec hmem hsig⟩

/-- C3 witness: instantiation at the concrete "buy" slice. -/
theorem C3_witness :
    initializedAlgo.attrs.filter (fun p => decide (p.1 = "equitySymbol")) = [] ∧
    lookupAttr initializedAlgo.attrs "equitySymbol" =
      Except.error (PyError.AttributeError "equitySymbol") ∧
    OnData initializedAlgo buySlice =
      (some (PyError.AttributeError "equitySymbol"), initializedAlgo, buySlice, []) :=
  C3_equitySymbol_never_assigned buySlice { SomeCustomProperty := "buy" } rfl (Or.inl rfl)

/-- C4 counterexample: on a slice whose custom-data mapping is non-empty
but has no entry for the subscribed custom-data symbol, the handler does
not simply take no action: it raises `KeyError`, refuting the claim that
every such slice is handled as a no-op. -/
theorem C4_counterexample :
    (OnData initializedAlgo missSlice).1 = some (PyError.KeyError customDataSymbol) := rfl

/-- C4 (amended): for every slice whose custom-data mapping is empty, or
which carries a record for the subscribed custom-data symbol whose signal
is neither "buy" nor "sell", `OnData` issues no command, raises no error,
and changes nothing. -/
theorem C4_no_action (slice : Slice)
    (h : (Slice.Get slice).isEmpty = true ∨
      ∃ rec, dictGetItem (Slice.Get slice) customDataSymbol = Except.ok rec ∧
        rec.SomeCustomProperty ≠ "buy" ∧ rec.SomeCustomProperty ≠ "sell") :
    OnData initializedAlgo slice = (none, initializedAlgo, slice, []) := by
  rcases h with hE | ⟨rec, hmem, hb, hs⟩
  · simp [OnData, hE]
  · have hne : (Slice.Get slice).isEmpty = false :=
      dictGetItem_ok_isEmpty_eq_false _ _ _ hmem
    simp [OnData, hne, lookup_custom_data_symbol, hmem, hb, hs]

/-- C4 witness: instantiation at the concrete "hold" slice. -/
theorem C4_witness :
    OnData initializedAlgo holdSlice = (none, initializedAlgo, holdSlice, []) :=
  C4_no_action holdSlice
    (Or.inr ⟨{ SomeCustomProperty := "hold" }, rfl, by decide, by decide⟩)

/-- C5: for every order event, the handler emits exactly one diagnostic
message when the status is `Filled` and none otherwise, and the message
contains the rendering of the instrument identifier of the event. -/
theorem C5_order_event_diagnostics (self : CustomDataAlgorithm) (orderEvent : OrderEvent) :
    (OnOrderEvent self orderEvent).2.2.2 =
      (if orderEvent.Status = OrderStatus.Filled
        then [Action.Debug (debugMessage orderEvent)] else []) ∧
    ∃ p q, debugMessage orderEvent = p ++ Symbol.str orderEvent.Symbol ++ q := by
  constructor
  · unfold OnOrderEvent
    split <;> rfl
  · exact ⟨"Purchased Stock: ", "", by simp [debugMessage]⟩

/-- C6: initialization registers the date range 2020-10-07 to 2020-10-11
and exactly the two subscriptions, equity "SPY" at daily resolution
followed by the custom data type bound to that equity, in source order
and nothing else. -/
theorem C6_initialize_registrations :
    initCalls = [InitCall.SetStartDate 2020 10 7, InitCall.SetEndDate 2020 10 11,
      InitCall.AddEquity "SPY" Resolution.Daily,
      InitCall.AddData "MyCustomDataType" (Symbol.equity "SPY")] ∧
    initCalls.filter isSubscription =
      [InitCall.AddEquity "SPY" Resolution.Daily,
       InitCall.AddData "MyCustomDataType" (Symbol.equity "SPY")] :=
  ⟨rfl, rfl⟩

/-- C7: both handlers return the engine-owned argument object unchanged
on every input: the strategy only reads slices and order events. -/
theorem C7_engine_objects_unchanged (self : CustomDataAlgorithm) (slice : Slice)
    (orderEvent : OrderEvent) :
    (OnData self slice).2.2.1 = slice ∧
    (OnOrderEvent self orderEvent).2.2.1 = orderEvent := by
  constructor
  · obtain ⟨err, acts, heq, _⟩ := onData_result self slice
    rw [heq]
  · unfold OnOrderEvent
    split <;> rfl

/-- C8: the stored configuration is assigned during initialization (the
instance dictionary holds exactly the two symbol attributes, and the date
range is registered once) and neither handler changes the instance on any
input. -/
theorem C8_configuration_immutable (self : CustomDataAlgorithm) (slice : Slice)
    (orderEvent : OrderEvent) :
    initializedAlgo.attrs.map Prod.fst = ["equity_symbol", "custom_data_symbol"] ∧
    initCalls.countP (fun c => match c with
      | InitCall.SetStartDate _ _ _ => true | _ => false) = 1 ∧
    initCalls.countP (fun c => match c with
      | InitCall.SetEndDate _ _ _ => true | _ => false) = 1 ∧
    (OnData self slice).2.1 = self ∧
    (OnOrderEvent self orderEvent).2.1 = self := by
  refine ⟨rfl, rfl, rfl, ?_, ?_⟩
  · obtain ⟨err, acts, heq, _⟩ := onData_result self slice
    rw [heq]
  · unfold OnOrderEvent
    split <;> rfl

/-- C9: on the initialized instance, a slice whose custom-data mapping is
non-empty but has no entry for the subscribed custom-data symbol makes
`OnData` raise `KeyError` on that symbol and issue nothing. -/
theorem C9_missing_key_raises (slice : Slice)
    (hne : (Slice.Get slice).isEmpty = false)
    (hmiss : (Slice.Get slice).find? (fun p => decide (p.1 = customDataSymbol)) = none) :
    OnData initializedAlgo slice =
      (some (PyError.KeyError customDataSymbol), initializedAlgo, slice, []) := by
  have hD : dictGetItem (Slice.Get slice) customDataSymbol =
      Except.error (PyError.KeyError customDataSymbol) := by
    simp [dictGetItem, hmiss]
  simp [OnData, hne, lookup_custom_data_symbol, hD]

/-- C9 witness: instantiation at the concrete slice keyed only by the
plain equity symbol. -/
theorem C9_witness :
    OnData initializedAlgo missSlice =
      (some (PyError.KeyError customDataSymbol), initializedAlgo, missSlice, []) :=
  C9_missing_key_raises missSlice rfl rfl

/-- C10: on every instance and slice, a single `OnData` invocation issues
at most one `SetHoldings` command, and any issued command has weight
exactly 1 or exactly -1. -/
theorem C10_at_most_one_holdings (self : CustomDataAlgorithm) (slice : Slice) :
    (OnData self slice).2.2.2 = [] ∨
      ∃ s, (OnData self slice).2.2.2 = [Action.SetHoldings s 1] ∨
        (OnData self slice).2.2.2 = [Action.SetHoldings s (-1)] := by
  obtain ⟨err, acts, heq, hshape⟩ := onData_result self slice
  rw [heq]
  exact hshape

end Demonstration
